import Mathlib

/-!
Verification development for the movie-generation-platform repository.

The repository is a set of Python "tool" services (story architect, video
generation, video editor).  This file gives a shallow embedding, in Lean 4, of
the concrete functions the frozen claims are about, and proves (or refutes)
each claim against that embedding.

Conventions used throughout:
* Python machine floats that only ever hold short decimal values are modelled
  as rationals (`ℚ`); `round(x, n)` is modelled by `pyRound`, which performs
  round-half-to-even as Python does.
* Python truthiness of optional strings/numbers is modelled explicitly
  (`optStrTruthy`, `pyOrInt`, ...).
* `str.strip()` / `str.split()` are modelled by `pyStrip` / `pySplitWs`.
* Fallible Python code is modelled with `Except`; an uncaught exception is an
  `Except.error` carrying the exception class name and message.
-/

/-! ## Shared Python-semantics helpers -/

/-- Model of Python `str.strip()`: drop leading and trailing whitespace. -/
def pyStrip (s : String) : String :=
  String.mk (((s.data.dropWhile Char.isWhitespace).reverse.dropWhile Char.isWhitespace).reverse)

/-- Accumulating word splitter over a character list: whitespace ends the
current word (if any); nothing is emitted for whitespace runs. -/
def wordsAux : List Char → List Char → List String
  | [], acc => if acc = [] then [] else [String.mk acc.reverse]
  | c :: cs, acc =>
    if c.isWhitespace then
      if acc = [] then wordsAux cs [] else String.mk acc.reverse :: wordsAux cs []
    else wordsAux cs (c :: acc)

/-- Model of Python `str.split()` with no argument: split on whitespace runs,
discarding empty pieces. -/
def pySplitWs (s : String) : List String :=
  wordsAux s.data []

/-- Number of whitespace-delimited words, i.e. `len(s.split())`. -/
def countWords (s : String) : Nat :=
  (pySplitWs s).length

/-- Truthiness of a Python `Optional[str]`: `None` and `""` are falsy. -/
def optStrTruthy : Option String → Bool
  | none => false
  | some s => s ≠ ""

/-- Python `a or b` for an `Optional[int]` left operand: falls through on
`None` and on `0`. -/
def pyOrInt (a : Option Int) (b : Int) : Int :=
  match a with
  | some x => if x ≠ 0 then x else b
  | none => b

/-- Python `a or b` for an `Optional[float]` left operand: falls through on
`None` and on `0.0`. -/
def pyOrRat (a : Option ℚ) (b : ℚ) : ℚ :=
  match a with
  | some x => if x ≠ 0 then x else b
  | none => b

/-- Floor of a rational, computed from its reduced numerator and positive
denominator (kept executable so concrete instances evaluate). -/
def ratFloorZ (x : ℚ) : ℤ :=
  Int.fdiv x.num (x.den : ℤ)

/-- Round-half-to-even to an integer, as Python's `round` does. -/
def roundHalfEven (x : ℚ) : ℤ :=
  let f : ℤ := ratFloorZ x
  let r : ℚ := x - (f : ℚ)
  if r < 1/2 then f
  else if r > 1/2 then f + 1
  else if f % 2 = 0 then f else f + 1

/-- Model of Python `round(x, n)` (round-half-to-even at `n` decimal places). -/
def pyRound (x : ℚ) (n : Nat) : ℚ :=
  (roundHalfEven (x * 10 ^ n) : ℚ) / 10 ^ n

/-- The executable floor agrees with the integer on integer inputs. -/
theorem ratFloorZ_intCast (m : ℤ) : ratFloorZ (m : ℚ) = m := by
  simp [ratFloorZ, Rat.num_intCast, Rat.den_intCast, Int.fdiv_one]

/-- Round-half-to-even fixes integers. -/
theorem roundHalfEven_intCast (m : ℤ) : roundHalfEven (m : ℚ) = m := by
  simp only [roundHalfEven, ratFloorZ_intCast, sub_self]
  norm_num

/-- Python `round` fixes integer-valued rationals at any number of decimal
places. -/
theorem pyRound_intCast (m : ℤ) (n : ℕ) : pyRound (m : ℚ) n = (m : ℚ) := by
  unfold pyRound
  have h1 : ((m : ℚ) * 10 ^ n) = ((m * 10 ^ n : ℤ) : ℚ) := by push_cast; ring
  rw [h1, roundHalfEven_intCast]
  push_cast
  field_simp

/-! ## Story architect: `ConceptBrief.validate_tag_arrays` (claim C9)

Source: `src/services/mcp-story-architect-service/src/models/story_models.py`,
validator `validate_tag_arrays` on `tone_keywords` / `genre_tags`:

    if not v: raise ValueError("Tag arrays must have at least one item")
    if len(v) > 3: v = v[:3]
    return [tag.strip() for tag in v if tag.strip()]
-/

/-- Embedding of the `validate_tag_arrays` pydantic validator. -/
def validate_tag_arrays (v : List String) : Except String (List String) :=
  if v = [] then .error "Tag arrays must have at least one item"
  else
    let v := if v.length > 3 then v.take 3 else v
    .ok (v.filterMap (fun tag => if pyStrip tag ≠ "" then some (pyStrip tag) else none))

/-! ## Story architect: `effective_llm_config` (claim C10)

Source: `src/services/mcp-story-architect-service/src/config.py`,
`StoryArchitectConfig.use_llm_override` / `StoryArchitectConfig.effective_llm_config`.
Only the configuration fields those two properties read are embedded.
-/

/-- The configuration fields of `StoryArchitectConfig` used by the claims. -/
structure StoryArchitectConfig where
  openai_model : String
  openai_api_key : String
  openai_max_tokens : Int
  openai_temperature : ℚ
  openai_timeout_seconds : Int
  override_llm_provider : Option String
  override_llm_model : Option String
  override_llm_api_key : Option String
  override_llm_max_tokens : Option Int
  override_llm_temperature : Option ℚ
  word_limit_soft : Nat
  word_limit_hard : Nat
  section_balance_threshold : ℚ
  deterministic_seed_enabled : Bool

/-- Embedding of `use_llm_override`: all three of provider/model/api_key are
set (the source tests `is not None`, not truthiness). -/
def use_llm_override (c : StoryArchitectConfig) : Bool :=
  c.override_llm_provider.isSome && c.override_llm_model.isSome && c.override_llm_api_key.isSome

/-- The dictionary returned by `effective_llm_config`. -/
structure LLMConfig where
  provider : String
  model : String
  api_key : String
  max_tokens : Int
  temperature : ℚ
  timeout : Int
deriving DecidableEq

/-- Embedding of `effective_llm_config`: the override dictionary uses Python
`or` on `max_tokens`/`temperature` and always takes the OpenAI timeout. -/
def effective_llm_config (c : StoryArchitectConfig) : LLMConfig :=
  if use_llm_override c then
    { provider := c.override_llm_provider.getD ""
      model := c.override_llm_model.getD ""
      api_key := c.override_llm_api_key.getD ""
      max_tokens := pyOrInt c.override_llm_max_tokens c.openai_max_tokens
      temperature := pyOrRat c.override_llm_temperature c.openai_temperature
      timeout := c.openai_timeout_seconds }
  else
    { provider := "openai"
      model := c.openai_model
      api_key := c.openai_api_key
      max_tokens := c.openai_max_tokens
      temperature := c.openai_temperature
      timeout := c.openai_timeout_seconds }

/-! ## Theorems for claims C9 and C10 -/

/-- C9: for every non-empty tag list, validation truncates to the first 3
entries **before** dropping whitespace-only entries; hence the result can have
fewer than 3 entries (zero when the first three are all blank), and a
non-blank tag at position 4 or later is never retained even when blanks among
the first 3 are discarded. -/
theorem C9_truncate_before_blank_filter (v : List String) (h : v ≠ []) :
    validate_tag_arrays v =
      .ok ((v.take 3).filterMap (fun tag => if pyStrip tag ≠ "" then some (pyStrip tag) else none))
    ∧ validate_tag_arrays [" ", "\t", "  "] = .ok []
    ∧ validate_tag_arrays ["a", " ", " ", "d"] = .ok ["a"] := by
  refine ⟨?_, by rfl, by rfl⟩
  unfold validate_tag_arrays
  rw [if_neg h]
  by_cases hl : v.length > 3
  · rw [if_pos hl]
  · rw [if_neg hl]
    have : v.take 3 = v := List.take_of_length_le (by omega)
    rw [this]

/-- Witness for C9 at a concrete non-empty list. -/
theorem C9_truncate_before_blank_filter_witness :
    validate_tag_arrays ["x", "", "y", "z"] = .ok ["x", "y"] := by
  have h := C9_truncate_before_blank_filter ["x", "", "y", "z"] (by decide)
  rw [h.1]
  rfl

/-- C10: when the LLM override is fully specified, `effective_llm_config`
uses the override's `max_tokens`/`temperature` only when they are truthy: an
override temperature of 0.0 or max_tokens of 0 silently falls back to the
OpenAI setting, and `timeout` always comes from the OpenAI timeout. -/
theorem C10_override_truthiness (c : StoryArchitectConfig)
    (h : use_llm_override c = true) :
    (effective_llm_config c).timeout = c.openai_timeout_seconds
    ∧ (c.override_llm_max_tokens = some 0 →
        (effective_llm_config c).max_tokens = c.openai_max_tokens)
    ∧ (c.override_llm_temperature = some 0 →
        (effective_llm_config c).temperature = c.openai_temperature)
    ∧ (∀ m : Int, m ≠ 0 → c.override_llm_max_tokens = some m →
        (effective_llm_config c).max_tokens = m)
    ∧ (∀ t : ℚ, t ≠ 0 → c.override_llm_temperature = some t →
        (effective_llm_config c).temperature = t) := by
  unfold effective_llm_config
  rw [if_pos h]
  refine ⟨rfl, ?_, ?_, ?_, ?_⟩
  · intro hm; simp [pyOrInt, hm]
  · intro ht; simp [pyOrRat, ht]
  · intro m hm hset; simp [pyOrInt, hset, hm]
  · intro t ht hset; simp [pyOrRat, hset, ht]

/-- Witness for C10: a fully-specified override with zero temperature and
zero max_tokens falls back to the OpenAI values, and keeps the OpenAI
timeout. -/
theorem C10_override_truthiness_witness :
    (effective_llm_config
        { openai_model := "gpt-4o-mini", openai_api_key := "k",
          openai_max_tokens := 2000, openai_temperature := 7/10,
          openai_timeout_seconds := 6,
          override_llm_provider := some "anthropic-compat",
          override_llm_model := some "m", override_llm_api_key := some "ok",
          override_llm_max_tokens := some 0, override_llm_temperature := some 0,
          word_limit_soft := 80, word_limit_hard := 120,
          section_balance_threshold := 1/2,
          deterministic_seed_enabled := true }).max_tokens = 2000 := by
  have h := C10_override_truthiness
    { openai_model := "gpt-4o-mini", openai_api_key := "k",
      openai_max_tokens := 2000, openai_temperature := 7/10,
      openai_timeout_seconds := 6,
      override_llm_provider := some "anthropic-compat",
      override_llm_model := some "m", override_llm_api_key := some "ok",
      override_llm_max_tokens := some 0, override_llm_temperature := some 0,
      word_limit_soft := 80, word_limit_hard := 120,
      section_balance_threshold := 1/2,
      deterministic_seed_enabled := true } (by decide)
  exact h.2.1 rfl

/-! ## Story architect: `_select_best_template` (claim C2)

Source: `src/services/mcp-story-architect-service/src/services/payload_service.py`,
`PayloadCMSService._select_best_template`.  Templates arrive from the CMS
already sorted by descending priority, then descending creation time.  The
selection runs four passes over the list in that order: exact match on the
criteria, genre-only match, tone-only match, untagged default, then falls back
to the head of the list.
-/

/-- A prompt-template document as seen by `_select_best_template` (only the
fields it reads). -/
structure PromptTemplateDoc where
  id : String
  genre_tag : Option String
  tone_tag : Option String
deriving DecidableEq

/-- Embedding of `PromptSelectionCriteria` (the fields `_select_best_template`
reads). -/
structure PromptSelectionCriteria where
  primary_genre : Option String
  primary_tone : Option String
  fallback_to_default : Bool

/-- One dimension of the exact-match test: `not criteria.x or
template.get(tag) == criteria.x`.  When the criterion is falsy the dimension
matches vacuously. -/
def matchesDim (crit : Option String) (tag : Option String) : Bool :=
  !(optStrTruthy crit) || (tag == crit)

/-- Falsiness of a template tag (`not template.get("genre_tag")`): absent or
empty. -/
def optStrFalsy (o : Option String) : Bool :=
  !(optStrTruthy o)

/-- Embedding of `_select_best_template`. -/
def select_best_template (templates : List PromptTemplateDoc)
    (c : PromptSelectionCriteria) : Option PromptTemplateDoc :=
  match templates.find? (fun t =>
      matchesDim c.primary_genre t.genre_tag && matchesDim c.primary_tone t.tone_tag) with
  | some t => some t
  | none =>
    match (if optStrTruthy c.primary_genre then
        templates.find? (fun t => t.genre_tag == c.primary_genre) else none) with
    | some t => some t
    | none =>
      match (if optStrTruthy c.primary_tone then
          templates.find? (fun t => t.tone_tag == c.primary_tone) else none) with
      | some t => some t
      | none =>
        match (if c.fallback_to_default then
            templates.find? (fun t => optStrFalsy t.genre_tag && optStrFalsy t.tone_tag) else none) with
        | some t => some t
        | none =>
          if !templates.isEmpty && c.fallback_to_default then templates.head? else none

/-- The comedy+dark template of the claim's scenario. -/
def tplComedyDark : PromptTemplateDoc :=
  { id := "tpl-comedy-dark", genre_tag := some "comedy", tone_tag := some "dark" }

/-- The genre-only comedy template of the claim's scenario. -/
def tplComedyOnly : PromptTemplateDoc :=
  { id := "tpl-comedy-only", genre_tag := some "comedy", tone_tag := none }

/-- The untagged default template of the claim's scenario. -/
def tplUntagged : PromptTemplateDoc :=
  { id := "tpl-untagged", genre_tag := none, tone_tag := none }

/-- Counterexample to C2: with the three templates of the claim's scenario
ordered comedy+dark first (e.g. because it has the highest priority), a
request with no genre and no tone selects the comedy+dark template, not the
untagged one — the exact-match pass matches every template vacuously when both
criteria are absent; and a request with genre "comedy", tone "light" also
selects the comedy+dark template, not the comedy-only one — the genre-only
pass ignores the mismatching tone tag. -/
theorem C2_counterexample :
    select_best_template [tplComedyDark, tplComedyOnly, tplUntagged]
        ⟨none, none, true⟩ = some tplComedyDark
    ∧ select_best_template [tplComedyDark, tplComedyOnly, tplUntagged]
        ⟨some "comedy", some "light", true⟩ = some tplComedyDark
    ∧ tplComedyDark ≠ tplUntagged ∧ tplComedyDark ≠ tplComedyOnly := by
  refine ⟨by rfl, by rfl, by decide, by decide⟩

/-- C2 (amended): each pass picks the first match in list order, so the stated
selections hold when the untagged default precedes the single-dimension
template, which precedes the double-tagged one; moreover with no genre and no
tone the exact-match pass matches every template vacuously, so selection
returns the head of the list (hence the untagged one only when it is listed
first). -/
theorem C2_selection_precedence_amended :
    (∀ ts : List PromptTemplateDoc,
        select_best_template ts ⟨none, none, true⟩ = ts.head?)
    ∧ select_best_template [tplUntagged, tplComedyOnly, tplComedyDark]
        ⟨some "comedy", some "dark", true⟩ = some tplComedyDark
    ∧ select_best_template [tplUntagged, tplComedyOnly, tplComedyDark]
        ⟨some "comedy", some "light", true⟩ = some tplComedyOnly
    ∧ select_best_template [tplUntagged, tplComedyOnly, tplComedyDark]
        ⟨none, none, true⟩ = some tplUntagged := by
  refine ⟨?_, by rfl, by rfl, by rfl⟩
  intro ts
  cases ts with
  | nil => rfl
  | cons t ts => rfl

/-! ## Video editor: request validation and timeline (claims C6, C7)

Sources: `src/services/mcp-video-editor-service/src/models.py`
(`VideoSegment`, `AssembleVideoRequest.limit_segments`) and
`src/services/mcp-video-editor-service/src/mcp/assemble_video.py`
(`AssembleVideoTool.execute`).  Download, encoding and CMS upload are external
I/O; the execute pipeline is embedded with those steps as oracle parameters so
that the theorems can state that a rejected request's outcome does not depend
on them.
-/

/-- Boolean test for `Except.ok`. -/
def exceptIsOk {ε α : Type} : Except ε α → Bool
  | .ok _ => true
  | .error _ => false

/-- A video segment of an `assemble_video` request (fields the claims read). -/
structure VideoSegment where
  segment_id : String
  video_url : String
  duration_seconds : ℚ
deriving DecidableEq

/-- The per-field pydantic constraint on `duration_seconds`:
`Field(gt=0, le=15)`. -/
def videoSegmentFieldOk (s : VideoSegment) : Bool :=
  decide (0 < s.duration_seconds) && decide (s.duration_seconds ≤ 15)

/-- Embedding of the `limit_segments` validator on
`AssembleVideoRequest.video_segments`. -/
def limit_segments (v : List VideoSegment) : Except String (List VideoSegment) :=
  if v.length = 0 then .error "At least one segment required"
  else if v.length > 3 then .error "Max 3 segments allowed in MVP"
  else if (v.map (fun s => s.duration_seconds)).sum > 15 then
    .error "Total duration must be <= 15 seconds for MVP"
  else .ok v

/-- Full request validation: pydantic validates each segment's field
constraints, then runs the `limit_segments` values validator. -/
def validateAssembleVideoRequest (v : List VideoSegment) :
    Except String (List VideoSegment) :=
  if v.all videoSegmentFieldOk then limit_segments v
  else .error "duration_seconds out of range"

/-- Embedding of `AssemblySettings` with its declared defaults. -/
structure AssemblySettings where
  transition : String := "hard_cut"
  fade_out_seconds : ℚ := 1
  output_resolution : String := "1280x720"
  frame_rate : Int := 24
deriving DecidableEq

/-- Embedding of the `TimelineEvent` model. -/
structure TimelineEvent where
  segment_id : String
  start_time : ℚ
  end_time : ℚ
  transition_out : String
deriving DecidableEq

/-- The timeline loop of `AssembleVideoTool.execute`: events are laid
back-to-back from the cursor; stored times are rounded to 3 decimals but the
cursor advances by the exact duration. -/
def buildTimelineGo (transition : String) (cursor : ℚ) :
    List VideoSegment → List TimelineEvent
  | [] => []
  | seg :: rest =>
    { segment_id := seg.segment_id, start_time := pyRound cursor 3,
      end_time := pyRound (cursor + seg.duration_seconds) 3,
      transition_out := transition }
      :: buildTimelineGo transition (cursor + seg.duration_seconds) rest

/-- Timeline preparation (step 2 of `execute`), starting from a zero cursor. -/
def buildTimeline (segs : List VideoSegment) (transition : String) :
    List TimelineEvent :=
  buildTimelineGo transition 0 segs

/-- Timeline as the spec words it: the i-th event starts at the sum of the
durations before it; written with `scanl` so it can be compared with the
cursor-based source loop. -/
def timelineSpec (segs : List VideoSegment) (transition : String) :
    List TimelineEvent :=
  List.zipWith
    (fun (seg : VideoSegment) (s : ℚ) =>
      { segment_id := seg.segment_id, start_time := pyRound s 3,
        end_time := pyRound (s + seg.duration_seconds) 3,
        transition_out := transition })
    segs ((segs.map (fun s => s.duration_seconds)).scanl (fun a b => a + b) 0)

/-- Outcome of the `assemble_video` execute pipeline. -/
inductive AssembleResult
  | success (video_url : String) (duration : ℚ) (timeline : List TimelineEvent)
  | errorEnvelope (type_ : String) (message : String)
deriving DecidableEq

/-- Embedding of `AssembleVideoTool.execute` with the three I/O steps
(download, encode, CMS upload) as oracle parameters.  Validation failure is
caught as a `ValidationError` envelope before any oracle is consulted. -/
def assemble_video_execute (input : List VideoSegment)
    (settings : Option AssemblySettings)
    (download : List VideoSegment → Except String (List String))
    (ffmpegAssemble : List String → AssemblySettings → List TimelineEvent → Except String ℚ)
    (upload : String → Except String String) : AssembleResult :=
  match validateAssembleVideoRequest input with
  | .error m => .errorEnvelope "ValidationError" m
  | .ok segs =>
    let st := settings.getD {}
    let timeline := buildTimeline segs st.transition
    match download segs with
    | .error m => .errorEnvelope "HTTPError" m
    | .ok paths =>
      match ffmpegAssemble paths st timeline with
      | .error m => .errorEnvelope "FFmpegError" m
      | .ok dur =>
        match upload "final_edit.mp4" with
        | .error m => .errorEnvelope "PayloadError" m
        | .ok url => .success url dur timeline

/-- The cursor-based loop equals the prefix-sum description for every starting
cursor. -/
theorem buildTimelineGo_eq_scanl (transition : String) :
    ∀ (segs : List VideoSegment) (c : ℚ),
      buildTimelineGo transition c segs =
        List.zipWith
          (fun (seg : VideoSegment) (s : ℚ) =>
            { segment_id := seg.segment_id, start_time := pyRound s 3,
              end_time := pyRound (s + seg.duration_seconds) 3,
              transition_out := transition })
          segs ((segs.map (fun s => s.duration_seconds)).scanl (fun a b => a + b) c)
  | [], _ => rfl
  | seg :: rest, c => by
    simp only [buildTimelineGo, List.map_cons, List.scanl_cons, List.zipWith_cons_cons]
    exact congrArg _ (buildTimelineGo_eq_scanl transition rest (c + seg.duration_seconds))

/-- Every event the loop emits carries the single chosen transition. -/
theorem buildTimelineGo_transition (transition : String) :
    ∀ (segs : List VideoSegment) (c : ℚ),
      (buildTimelineGo transition c segs).all
        (fun e => e.transition_out == transition) = true
  | [], _ => rfl
  | seg :: rest, c => by
    simp only [buildTimelineGo, List.all_cons, Bool.and_eq_true, beq_iff_eq]
    exact ⟨trivial, buildTimelineGo_transition transition rest (c + seg.duration_seconds)⟩

/-- C7: the computed edit timeline places segments back-to-back in request
order from a zero cursor, each event's start being the running sum of earlier
durations and its end being start plus its own duration, both rounded to 3
decimals; every event carries the single chosen transition, whose assembly
default is `"hard_cut"`; segments of 3.0s and 4.0s yield events (0,3) and
(3,7). -/
theorem C7_timeline_back_to_back :
    (∀ (segs : List VideoSegment) (transition : String),
      buildTimeline segs transition = timelineSpec segs transition)
    ∧ (∀ (segs : List VideoSegment) (transition : String),
        (buildTimeline segs transition).all
          (fun e => e.transition_out == transition) = true)
    ∧ ({} : AssemblySettings).transition = "hard_cut"
    ∧ buildTimeline
        [{ segment_id := "s1", video_url := "u1", duration_seconds := 3 },
         { segment_id := "s2", video_url := "u2", duration_seconds := 4 }] "hard_cut" =
      [{ segment_id := "s1", start_time := 0, end_time := 3, transition_out := "hard_cut" },
       { segment_id := "s2", start_time := 3, end_time := 7, transition_out := "hard_cut" }] := by
  refine ⟨?_, ?_, rfl, ?_⟩
  · intro segs transition
    exact buildTimelineGo_eq_scanl transition segs 0
  · intro segs transition
    exact buildTimelineGo_transition transition segs 0
  · have e0 : pyRound (0 : ℚ) 3 = 0 := by simpa using pyRound_intCast 0 3
    have e3 : pyRound (3 : ℚ) 3 = 3 := by simpa using pyRound_intCast 3 3
    have e7 : pyRound ((3 : ℚ) + 4) 3 = 7 := by
      rw [show ((3 : ℚ) + 4) = ((7 : ℤ) : ℚ) by norm_num]
      simpa using pyRound_intCast 7 3
    simp [buildTimeline, buildTimelineGo, e0, e3, e7]

/-- C6: with each segment's own duration in (0, 15], the request is accepted
iff it has 1–3 segments whose durations sum to at most 15.0; a rejected
request produces the `ValidationError` envelope whatever the I/O oracles do
(so before any download, encoding, or CMS I/O); 10.0s+8.0s is rejected, 4
segments are rejected, 0 segments are rejected. -/
theorem C6_request_validation (v : List VideoSegment)
    (h : ∀ s ∈ v, 0 < s.duration_seconds ∧ s.duration_seconds ≤ 15) :
    (exceptIsOk (validateAssembleVideoRequest v) = true ↔
      (1 ≤ v.length ∧ v.length ≤ 3 ∧ (v.map (fun s => s.duration_seconds)).sum ≤ 15))
    ∧ (∀ m dl ff up, validateAssembleVideoRequest v = .error m →
        assemble_video_execute v none dl ff up = .errorEnvelope "ValidationError" m)
    ∧ exceptIsOk (validateAssembleVideoRequest
        [{ segment_id := "s1", video_url := "u1", duration_seconds := 10 },
         { segment_id := "s2", video_url := "u2", duration_seconds := 8 }]) = false
    ∧ exceptIsOk (validateAssembleVideoRequest
        [{ segment_id := "s1", video_url := "u", duration_seconds := 1 },
         { segment_id := "s2", video_url := "u", duration_seconds := 1 },
         { segment_id := "s3", video_url := "u", duration_seconds := 1 },
         { segment_id := "s4", video_url := "u", duration_seconds := 1 }]) = false
    ∧ exceptIsOk (validateAssembleVideoRequest ([] : List VideoSegment)) = false := by
  have hall : v.all videoSegmentFieldOk = true := by
    rw [List.all_eq_true]
    intro s hs
    have hh := h s hs
    simp [videoSegmentFieldOk, hh.1, hh.2]
  refine ⟨?_, ?_, ?_, ?_, ?_⟩
  case refine_3 =>
    unfold validateAssembleVideoRequest
    rw [if_pos (by norm_num [List.all_cons, List.all_nil, videoSegmentFieldOk])]
    unfold limit_segments
    rw [if_neg (by norm_num), if_neg (by norm_num),
      if_pos (by norm_num [List.map_cons, List.map_nil, List.sum_cons, List.sum_nil])]
    rfl
  case refine_4 =>
    unfold validateAssembleVideoRequest
    rw [if_pos (by norm_num [List.all_cons, List.all_nil, videoSegmentFieldOk])]
    unfold limit_segments
    rw [if_neg (by norm_num), if_pos (by norm_num)]
    rfl
  case refine_5 =>
    unfold validateAssembleVideoRequest
    rw [if_pos (by norm_num [List.all_nil])]
    unfold limit_segments
    rw [if_pos (by norm_num)]
    rfl
  · unfold validateAssembleVideoRequest
    rw [if_pos hall]
    unfold limit_segments
    split_ifs with h0 h3 hs
    · refine ⟨fun hh => absurd hh Bool.false_ne_true, ?_⟩
      rintro ⟨h1, -, -⟩
      exact absurd h1 (by omega)
    · refine ⟨fun hh => absurd hh Bool.false_ne_true, ?_⟩
      rintro ⟨-, h1, -⟩
      exact absurd h1 (by omega)
    · refine ⟨fun hh => absurd hh Bool.false_ne_true, ?_⟩
      rintro ⟨-, -, h1⟩
      exact absurd h1 (not_le.mpr hs)
    · exact ⟨fun _ => ⟨by omega, by omega, not_lt.mp hs⟩, fun _ => rfl⟩
  · intro m dl ff up hval
    simp only [assemble_video_execute, hval]

/-- Witness for C6 at the concrete 10.0s + 8.0s request. -/
theorem C6_request_validation_witness :
    exceptIsOk (validateAssembleVideoRequest
      [{ segment_id := "s1", video_url := "u1", duration_seconds := 10 },
       { segment_id := "s2", video_url := "u2", duration_seconds := 8 }]) = false := by
  have h := C6_request_validation
    [{ segment_id := "s1", video_url := "u1", duration_seconds := 10 },
     { segment_id := "s2", video_url := "u2", duration_seconds := 8 }]
    (by
      intro s hs
      simp only [List.mem_cons, List.not_mem_nil, or_false] at hs
      rcases hs with rfl | rfl <;> norm_num)
  exact h.2.2.1

/-! ## Video generation: `group_frames_into_segments` (claim C4)

Source: `src/services/mcp-video-generation-service/src/video_generation/grouping.py`.
Frames are sorted by `(scene_number, shot_order)` (Python's `sorted` is a
stable sort, embedded here with Mathlib's stable `insertionSort`), chunked by
scene with at most `default_chunk_size` frames per chunk, then the chunk list
is capped at `max(1, min(3, floor(max_total_runtime // duration_per_segment)))`
segments of at most 2 frames each.
-/

/-- A generated frame (the fields `group_frames_into_segments` reads). -/
structure GeneratedFrame where
  frame_id : String
  image_url : String
  scene_number : Int
  shot_order : Int
deriving DecidableEq

/-- Order used by the sort key `(scene_number, shot_order)`. -/
def frameLe (a b : GeneratedFrame) : Prop :=
  a.scene_number < b.scene_number ∨
    (a.scene_number = b.scene_number ∧ a.shot_order ≤ b.shot_order)

instance : DecidableRel frameLe := fun a b => by unfold frameLe; infer_instance

/-- Python `sorted(frames, key=lambda f: (f.scene_number, f.shot_order))`:
a stable sort by the key. -/
def sortFrames (l : List GeneratedFrame) : List GeneratedFrame :=
  l.insertionSort frameLe

/-- The chunking loop of `group_frames_into_segments`: break on scene change,
emit a chunk whenever it reaches `max(1, default_chunk_size)` frames, and
flush the trailing chunk. -/
def groupLoop (chunkSize : Int) :
    List GeneratedFrame → Option Int → List GeneratedFrame → List (List GeneratedFrame)
  | [], _, current => if current = [] then [] else [current]
  | fr :: rest, curScene, current =>
    let scene0 := curScene.getD fr.scene_number
    if scene0 ≠ fr.scene_number then
      let emitted := if current = [] then ([] : List (List GeneratedFrame)) else [current]
      if ((1 : Int) ≥ max 1 chunkSize) then
        emitted ++ [[fr]] ++ groupLoop chunkSize rest (some fr.scene_number) []
      else
        emitted ++ groupLoop chunkSize rest (some fr.scene_number) [fr]
    else
      let current1 := current ++ [fr]
      if ((current1.length : Int) ≥ max 1 chunkSize) then
        [current1] ++ groupLoop chunkSize rest (some fr.scene_number) []
      else
        groupLoop chunkSize rest (some fr.scene_number) current1

/-- Embedding of `group_frames_into_segments`: sort, chunk, then cap the
chunk list at `max(1, min(3, floor(max_total_runtime // dps)))` where `dps` is
the duration coerced to 3.0 when non-positive, and trim each chunk to 2
frames. -/
def group_frames_into_segments (generated_frames : List GeneratedFrame)
    (default_chunk_size : Int) (duration_per_segment : ℚ) (max_total_runtime : ℚ) :
    List (List GeneratedFrame) :=
  if generated_frames = [] then []
  else
    ((groupLoop default_chunk_size (sortFrames generated_frames) none []).take
      (max 1 (min 3 (ratFloorZ (max_total_runtime /
        (if duration_per_segment ≤ 0 then 3 else duration_per_segment))))).toNat).map
      (fun seg => seg.take 2)

/-- Membership in the conditional one-chunk emission of the loop. -/
theorem mem_emit {c cur : List GeneratedFrame}
    (h : c ∈ if cur = ([] : List GeneratedFrame) then ([] : List (List GeneratedFrame)) else [cur]) :
    c = cur ∧ cur ≠ [] := by
  split_ifs at h with hemp
  · simp at h
  · simp only [List.mem_singleton] at h
    exact ⟨h, hemp⟩

/-- Every chunk the loop emits is non-empty. -/
theorem groupLoop_ne_nil (chunkSize : Int) :
    ∀ (l : List GeneratedFrame) (sc : Option Int) (cur : List GeneratedFrame),
      ∀ c ∈ groupLoop chunkSize l sc cur, c ≠ []
  | [], _, cur => by
    intro c hc
    simp only [groupLoop] at hc
    split_ifs at hc with h
    · simp at hc
    · simp only [List.mem_singleton] at hc
      subst hc
      exact h
  | fr :: rest, sc, cur => by
    intro c hc
    simp only [groupLoop] at hc
    by_cases h1 : sc.getD fr.scene_number ≠ fr.scene_number
    · rw [if_pos h1] at hc
      by_cases h2 : (1 : Int) ≥ max 1 chunkSize
      · rw [if_pos h2] at hc
        rcases List.mem_append.mp hc with hl | hrec
        · rcases List.mem_append.mp hl with he | hs
          · rcases mem_emit he with ⟨rfl, hne⟩
            exact hne
          · simp only [List.mem_singleton] at hs
            subst hs
            simp
        · exact groupLoop_ne_nil chunkSize rest (some fr.scene_number) [] c hrec
      · rw [if_neg h2] at hc
        rcases List.mem_append.mp hc with he | hrec
        · rcases mem_emit he with ⟨rfl, hne⟩
          exact hne
        · exact groupLoop_ne_nil chunkSize rest (some fr.scene_number) [fr] c hrec
    · rw [if_neg h1] at hc
      by_cases h3 : (((cur ++ [fr]).length : Int) ≥ max 1 chunkSize)
      · rw [if_pos h3] at hc
        rcases List.mem_append.mp hc with he | hrec
        · simp only [List.mem_singleton] at he
          subst he
          simp
        · exact groupLoop_ne_nil chunkSize rest (some fr.scene_number) [] c hrec
      · rw [if_neg h3] at hc
        exact groupLoop_ne_nil chunkSize rest (some fr.scene_number) (cur ++ [fr]) c hc

/-- A current chunk all of whose members carry the tracked scene has a single
scene value. -/
theorem inv_exists_scene {sc : Option Int} {cur : List GeneratedFrame}
    (hinv : ∀ f ∈ cur, sc = some f.scene_number) :
    ∃ v, ∀ f ∈ cur, f.scene_number = v := by
  cases cur with
  | nil => exact ⟨0, by simp⟩
  | cons a as =>
    refine ⟨a.scene_number, ?_⟩
    intro f hf
    have h1 := hinv f hf
    have h2 := hinv a (List.mem_cons_self a as)
    rw [h1] at h2
    exact Option.some_inj.mp h2

/-- Every chunk the loop emits consists of frames of a single scene (the loop
breaks on scene change). -/
theorem groupLoop_chunk_scene (chunkSize : Int) :
    ∀ (l : List GeneratedFrame) (sc : Option Int) (cur : List GeneratedFrame),
      (∀ f ∈ cur, sc = some f.scene_number) →
      ∀ c ∈ groupLoop chunkSize l sc cur, ∃ v, ∀ f ∈ c, f.scene_number = v
  | [], sc, cur => by
    intro hinv c hc
    simp only [groupLoop] at hc
    split_ifs at hc with h
    · simp at hc
    · simp only [List.mem_singleton] at hc
      subst hc
      exact inv_exists_scene hinv
  | fr :: rest, sc, cur => by
    intro hinv c hc
    simp only [groupLoop] at hc
    by_cases h1 : sc.getD fr.scene_number ≠ fr.scene_number
    · rw [if_pos h1] at hc
      have hrec1 : ∀ f ∈ [fr], (some fr.scene_number : Option Int) = some f.scene_number := by
        intro f hf
        simp only [List.mem_singleton] at hf
        subst hf
        rfl
      by_cases h2 : (1 : Int) ≥ max 1 chunkSize
      · rw [if_pos h2] at hc
        rcases List.mem_append.mp hc with hl | hrec
        · rcases List.mem_append.mp hl with he | hs
          · rcases mem_emit he with ⟨rfl, -⟩
            exact inv_exists_scene hinv
          · simp only [List.mem_singleton] at hs
            subst hs
            exact inv_exists_scene hrec1
        · exact groupLoop_chunk_scene chunkSize rest (some fr.scene_number) [] (by simp) c hrec
      · rw [if_neg h2] at hc
        rcases List.mem_append.mp hc with he | hrec
        · rcases mem_emit he with ⟨rfl, -⟩
          exact inv_exists_scene hinv
        · exact groupLoop_chunk_scene chunkSize rest (some fr.scene_number) [fr] hrec1 c hrec
    · rw [if_neg h1] at hc
      push_neg at h1
      have hinv' : ∀ f ∈ cur ++ [fr],
          (some fr.scene_number : Option Int) = some f.scene_number := by
        intro f hf
        rcases List.mem_append.mp hf with hf1 | hf2
        · have hsc := hinv f hf1
          cases hs0 : sc with
          | none => rw [hs0] at hsc; cases hsc
          | some s =>
            rw [hs0] at hsc h1
            simp only [Option.getD_some] at h1
            rw [← h1]
            exact hsc
        · simp only [List.mem_singleton] at hf2
          subst hf2
          rfl
      by_cases h3 : (((cur ++ [fr]).length : Int) ≥ max 1 chunkSize)
      · rw [if_pos h3] at hc
        rcases List.mem_append.mp hc with he | hrec
        · simp only [List.mem_singleton] at he
          subst he
          exact inv_exists_scene hinv'
        · exact groupLoop_chunk_scene chunkSize rest (some fr.scene_number) [] (by simp) c hrec
      · rw [if_neg h3] at hc
        exact groupLoop_chunk_scene chunkSize rest (some fr.scene_number) (cur ++ [fr]) hinv' c hc

/-- First frame of scene 1 in the claim's concrete scenario. -/
def frameS1a : GeneratedFrame :=
  { frame_id := "SCENE_1_SHOT_1", image_url := "https://e.com/1.png", scene_number := 1, shot_order := 1 }

/-- Second frame of scene 1. -/
def frameS1b : GeneratedFrame :=
  { frame_id := "SCENE_1_SHOT_2", image_url := "https://e.com/2.png", scene_number := 1, shot_order := 2 }

/-- First frame of scene 2. -/
def frameS2a : GeneratedFrame :=
  { frame_id := "SCENE_2_SHOT_1", image_url := "https://e.com/3.png", scene_number := 2, shot_order := 1 }

/-- Second frame of scene 2. -/
def frameS2b : GeneratedFrame :=
  { frame_id := "SCENE_2_SHOT_2", image_url := "https://e.com/4.png", scene_number := 2, shot_order := 2 }

/-- Only frame of scene 3. -/
def frameS3a : GeneratedFrame :=
  { frame_id := "SCENE_3_SHOT_1", image_url := "https://e.com/5.png", scene_number := 3, shot_order := 1 }

/-- The claim's five frames (2 + 2 + 1 over three scenes), deliberately out of
order so the sort matters. -/
def framesEx : List GeneratedFrame :=
  [frameS2b, frameS1a, frameS3a, frameS1b, frameS2a]

/-- C4: with chunk size 2, every produced segment has 1–2 frames of a single
scene, the segment list is capped at
`max(1, min(3, floor(max_total_runtime / duration_per_segment)))` (duration
coerced to 3.0 when non-positive), and the claim's five-frame scenario with
duration 3.0 and runtime budget 12.0 yields exactly 3 segments, the first
being the two scene-1 frames in shot order. -/
theorem C4_grouping (frames : List GeneratedFrame) (d rt : ℚ) :
    (∀ seg ∈ group_frames_into_segments frames 2 d rt, seg.length ≤ 2 ∧ seg ≠ [])
    ∧ (∀ seg ∈ group_frames_into_segments frames 2 d rt, ∃ v, ∀ f ∈ seg, f.scene_number = v)
    ∧ (group_frames_into_segments frames 2 d rt).length ≤
        (max 1 (min 3 (ratFloorZ (rt / (if d ≤ 0 then 3 else d))))).toNat
    ∧ group_frames_into_segments framesEx 2 3 12 =
        [[frameS1a, frameS1b], [frameS2a, frameS2b], [frameS3a]] := by
  refine ⟨?_, ?_, ?_, ?_⟩
  · intro seg hseg
    unfold group_frames_into_segments at hseg
    by_cases hemp : frames = []
    · rw [if_pos hemp] at hseg
      simp at hseg
    · rw [if_neg hemp] at hseg
      simp only [List.mem_map] at hseg
      obtain ⟨chunk, hchunk, rfl⟩ := hseg
      have hmem : chunk ∈ groupLoop 2 (sortFrames frames) none [] :=
        List.take_subset _ _ hchunk
      have hne := groupLoop_ne_nil 2 (sortFrames frames) none [] chunk hmem
      constructor
      · exact List.length_take_le 2 chunk
      · cases chunk with
        | nil => exact absurd rfl hne
        | cons a as => simp
  · intro seg hseg
    unfold group_frames_into_segments at hseg
    by_cases hemp : frames = []
    · rw [if_pos hemp] at hseg
      simp at hseg
    · rw [if_neg hemp] at hseg
      simp only [List.mem_map] at hseg
      obtain ⟨chunk, hchunk, rfl⟩ := hseg
      have hmem : chunk ∈ groupLoop 2 (sortFrames frames) none [] :=
        List.take_subset _ _ hchunk
      obtain ⟨v, hv⟩ :=
        groupLoop_chunk_scene 2 (sortFrames frames) none [] (by simp) chunk hmem
      exact ⟨v, fun f hf => hv f (List.take_subset _ _ hf)⟩
  · unfold group_frames_into_segments
    by_cases hemp : frames = []
    · rw [if_pos hemp]
      simp
    · rw [if_neg hemp, List.length_map, List.length_take]
      exact min_le_left _ _
  · unfold group_frames_into_segments
    rw [if_neg (by decide)]
    rw [show ((12 : ℚ) / (if (3 : ℚ) ≤ 0 then 3 else 3)) = ((4 : ℤ) : ℚ) by norm_num,
      ratFloorZ_intCast]
    decide

/-- Witness for C4: the first produced segment of the concrete scenario
satisfies the per-segment bounds and single-scene property. -/
theorem C4_grouping_witness :
    ([frameS1a, frameS1b].length ≤ 2 ∧ [frameS1a, frameS1b] ≠ [])
    ∧ (∃ v, ∀ f ∈ [frameS1a, frameS1b], f.scene_number = v) := by
  have h := C4_grouping framesEx 3 12
  have hm : [frameS1a, frameS1b] ∈ group_frames_into_segments framesEx 2 3 12 := by
    rw [h.2.2.2]
    simp
  exact ⟨h.1 _ hm, h.2.1 _ hm⟩

/-! ## Video generation: `_handle_synthesize` fail-fast loop (claim C5)

Source: `src/services/mcp-video-generation-service/src/mcp_server.py`.  The
handler walks the segment specs in order; each provider success appends a
video-segment result, and the first provider failure appends a single
failed-segment entry (fixed code `"provider_error"`) and breaks out of the
loop.  The provider call is external I/O and is passed as an oracle.
-/

/-- A segment spec (`to_segment_specs` output: id plus frame ids). -/
structure SegSpec where
  segment_id : String
  frame_ids : List String
deriving DecidableEq

/-- A successful provider synthesis result. -/
structure SynthOk where
  video_url : String
  provider_metadata : List (String × String)
deriving DecidableEq

/-- A successful video-segment entry of the response. -/
structure VideoSegOut where
  segment_id : String
  associated_frames : List String
  video_url : String
  duration_seconds : ℚ
  provider_metadata : List (String × String)
deriving DecidableEq

/-- A failed-segment entry of the response. -/
structure FailedSegOut where
  segment_id : String
  error : String
  message : String
deriving DecidableEq

/-- Embedding of `to_segment_specs`: ids `SEGMENT_1`, `SEGMENT_2`, ... with
the chunk's frame ids. -/
def to_segment_specs (chunks : List (List GeneratedFrame)) : List SegSpec :=
  ((List.range chunks.length).zip chunks).map
    (fun p => { segment_id := "SEGMENT_" ++ toString (p.1 + 1),
                frame_ids := p.2.map (fun f => f.frame_id) })

/-- The per-segment loop of `_handle_synthesize`: successes accumulate until
the first provider failure, which is recorded once and stops the loop. -/
def synth_loop (provider : SegSpec → Except String SynthOk) (duration : ℚ) :
    List SegSpec → List VideoSegOut × List FailedSegOut
  | [] => ([], [])
  | spec :: rest =>
    match provider spec with
    | .ok synth =>
      let r := synth_loop provider duration rest
      ({ segment_id := spec.segment_id, associated_frames := spec.frame_ids,
         video_url := synth.video_url, duration_seconds := duration,
         provider_metadata := synth.provider_metadata } :: r.1, r.2)
    | .error m => ([], [{ segment_id := spec.segment_id, error := "provider_error", message := m }])

/-- If everything before `s` succeeds and `s` fails, the loop returns exactly
the earlier successes and the single failure record, ignoring everything
after `s`. -/
theorem synth_loop_fail_first (provider : SegSpec → Except String SynthOk)
    (duration : ℚ) (f : SegSpec → SynthOk) (m : String) :
    ∀ (pre : List SegSpec) (s : SegSpec) (post : List SegSpec),
      (∀ x ∈ pre, provider x = .ok (f x)) → provider s = .error m →
      synth_loop provider duration (pre ++ s :: post) =
        (pre.map (fun x =>
          { segment_id := x.segment_id, associated_frames := x.frame_ids,
            video_url := (f x).video_url, duration_seconds := duration,
            provider_metadata := (f x).provider_metadata }),
         [{ segment_id := s.segment_id, error := "provider_error", message := m }])
  | [], s, post => by
    intro _ hs
    simp only [List.nil_append, synth_loop, hs, List.map_nil]
  | p :: pre, s, post => by
    intro hpre hs
    have hp := hpre p (List.mem_cons_self p pre)
    have ih := synth_loop_fail_first provider duration f m pre s post
      (fun x hx => hpre x (List.mem_cons_of_mem p hx)) hs
    simp only [List.cons_append, synth_loop, hp, List.map_cons, List.append_eq]
    rw [ih]

/-- C5: when the provider fails on a segment, the response carries exactly
one failed-segment entry (that segment's id, code `"provider_error"`, the
failure message), the successful list is exactly the segments that succeeded
before it, and the segments after the failing one are never attempted (the
result equals the result of the batch truncated at the failing segment). -/
theorem C5_fail_fast (provider : SegSpec → Except String SynthOk) (duration : ℚ)
    (f : SegSpec → SynthOk) (m : String) (pre : List SegSpec) (s : SegSpec)
    (post : List SegSpec) (hpre : ∀ x ∈ pre, provider x = .ok (f x))
    (hs : provider s = .error m) :
    synth_loop provider duration (pre ++ s :: post) =
      (pre.map (fun x =>
        { segment_id := x.segment_id, associated_frames := x.frame_ids,
          video_url := (f x).video_url, duration_seconds := duration,
          provider_metadata := (f x).provider_metadata }),
       [{ segment_id := s.segment_id, error := "provider_error", message := m }])
    ∧ synth_loop provider duration (pre ++ s :: post) =
        synth_loop provider duration (pre ++ [s]) := by
  have h1 := synth_loop_fail_first provider duration f m pre s post hpre hs
  have h2 := synth_loop_fail_first provider duration f m pre s [] hpre hs
  exact ⟨h1, by rw [h1, h2]⟩

/-- Witness for C5: the first of three segments fails, so the result has one
failed segment and zero successful ones. -/
theorem C5_fail_fast_witness :
    synth_loop
      (fun spec => if spec.segment_id = "SEGMENT_1" then .error "boom"
        else .ok { video_url := "https://v.example/ok.mp4", provider_metadata := [] })
      3
      [{ segment_id := "SEGMENT_1", frame_ids := ["F1", "F2"] },
       { segment_id := "SEGMENT_2", frame_ids := ["F3", "F4"] },
       { segment_id := "SEGMENT_3", frame_ids := ["F5"] }] =
      ([], [{ segment_id := "SEGMENT_1", error := "provider_error", message := "boom" }]) := by
  have h := C5_fail_fast
    (fun spec => if spec.segment_id = "SEGMENT_1" then .error "boom"
      else .ok { video_url := "https://v.example/ok.mp4", provider_metadata := [] })
    3
    (fun _ => { video_url := "https://v.example/ok.mp4", provider_metadata := [] })
    "boom"
    []
    { segment_id := "SEGMENT_1", frame_ids := ["F1", "F2"] }
    [{ segment_id := "SEGMENT_2", frame_ids := ["F3", "F4"] },
     { segment_id := "SEGMENT_3", frame_ids := ["F5"] }]
    (by intro x hx; simp at hx)
    (by rfl)
  simpa using h.1

/-! ## Story architect: word-count analysis (claim C1)

Source: `src/services/mcp-story-architect-service/src/mcp/draft_story_arc.py`,
`DraftStoryArcTool._analyze_word_counts` / `_create_word_limit_flags` /
`_create_section_imbalance_flag`.  The algorithm addresses the arc's three
sections as `beginning` / `middle` / `end` and constructs flag codes
`WORD_LIMIT_HARD` / `WORD_LIMIT_SOFT` / `SECTION_IMBALANCE`; the declared
pydantic models use different field and enum names — a divergence the spec
records as an open question.  The embedding follows the algorithm of the
cited lines, with the flag code as the attribute name the source references.
-/

/-- The three prose sections the word-count algorithm reads (`end` is a Lean
keyword, so that attribute is embedded as `ending`). -/
structure StoryArcSections where
  beginning : String
  middle : String
  ending : String
deriving DecidableEq

/-- Severity levels of `ContinuitySeverity`. -/
inductive FlagSeverity
  | info
  | warning
  | error
  | critical
deriving DecidableEq

/-- A continuity flag as the word-count code constructs it: code, message,
section label, severity, and the numeric `details` payload. -/
structure ContinuityFlag where
  code : String
  message : String
  section_name : String
  severity : FlagSeverity
  details : List (String × ℚ)
deriving DecidableEq

/-- The analysis record as `_analyze_word_counts` populates it. -/
structure WordCountAnalysis where
  beginning_count : Nat
  middle_count : Nat
  end_count : Nat
  total_count : Nat
  has_violations : Bool
  violation_codes : List String
deriving DecidableEq

/-- The word-limit part of the violation codes: one code when the total
exceeds the soft limit, with the hard-limit code taking precedence. -/
def limitCodes (cfg : StoryArchitectConfig) (total : Nat) : List String :=
  if total > cfg.word_limit_soft then
    if total > cfg.word_limit_hard then ["HARD_LIMIT_EXCEEDED"] else ["SOFT_LIMIT_EXCEEDED"]
  else []

/-- The section-balance part of the violation codes: each section whose word
count deviates from the even share `total/3` by more than the configured
threshold fraction of that share is flagged. -/
def imbalanceCodes (cfg : StoryArchitectConfig) (b m e total : Nat) : List String :=
  (if |(b : ℚ) - (total : ℚ) / 3| > (total : ℚ) / 3 * cfg.section_balance_threshold
    then ["BEGINNING_IMBALANCE"] else []) ++
  (if |(m : ℚ) - (total : ℚ) / 3| > (total : ℚ) / 3 * cfg.section_balance_threshold
    then ["MIDDLE_IMBALANCE"] else []) ++
  (if |(e : ℚ) - (total : ℚ) / 3| > (total : ℚ) / 3 * cfg.section_balance_threshold
    then ["END_IMBALANCE"] else [])

/-- Embedding of `_analyze_word_counts`. -/
def _analyze_word_counts (cfg : StoryArchitectConfig) (arc : StoryArcSections) :
    WordCountAnalysis :=
  { beginning_count := countWords arc.beginning
    middle_count := countWords arc.middle
    end_count := countWords arc.ending
    total_count := countWords arc.beginning + countWords arc.middle + countWords arc.ending
    has_violations :=
      !(limitCodes cfg (countWords arc.beginning + countWords arc.middle + countWords arc.ending) ++
        imbalanceCodes cfg (countWords arc.beginning) (countWords arc.middle)
          (countWords arc.ending)
          (countWords arc.beginning + countWords arc.middle + countWords arc.ending)).isEmpty
    violation_codes :=
      limitCodes cfg (countWords arc.beginning + countWords arc.middle + countWords arc.ending) ++
        imbalanceCodes cfg (countWords arc.beginning) (countWords arc.middle)
          (countWords arc.ending)
          (countWords arc.beginning + countWords arc.middle + countWords arc.ending) }

/-- The error-severity hard-limit flag the source constructs. -/
def hardLimitFlag (cfg : StoryArchitectConfig) (total : Nat) : ContinuityFlag :=
  { code := "WORD_LIMIT_HARD"
    message := "Story arc exceeds hard word limit (" ++ toString total ++ "/" ++
      toString cfg.word_limit_hard ++ " words)"
    section_name := "all"
    severity := .error
    details := [("limit", (cfg.word_limit_hard : ℚ)), ("actual", (total : ℚ)),
      ("overage_percent",
        pyRound (((total : ℚ) - (cfg.word_limit_hard : ℚ)) / (cfg.word_limit_hard : ℚ) * 100) 1)] }

/-- The warning-severity soft-limit flag the source constructs. -/
def softLimitFlag (cfg : StoryArchitectConfig) (total : Nat) : ContinuityFlag :=
  { code := "WORD_LIMIT_SOFT"
    message := "Story arc exceeds soft word limit (" ++ toString total ++ "/" ++
      toString cfg.word_limit_soft ++ " words)"
    section_name := "all"
    severity := .warning
    details := [("limit", (cfg.word_limit_soft : ℚ)), ("actual", (total : ℚ)),
      ("overage_percent",
        pyRound (((total : ℚ) - (cfg.word_limit_soft : ℚ)) / (cfg.word_limit_soft : ℚ) * 100) 1)] }

/-- Embedding of `_create_section_imbalance_flag`. -/
def _create_section_imbalance_flag (sectionName : String) (word_count total_words : Nat) :
    ContinuityFlag :=
  { code := "SECTION_IMBALANCE"
    message := "The " ++ sectionName ++ " section is " ++
      (if (word_count : ℚ) > (total_words : ℚ) / 3 then "too long" else "too short") ++
      " relative to other sections"
    section_name := sectionName
    severity := .warning
    details := [("expected_words", (roundHalfEven ((total_words : ℚ) / 3) : ℚ)),
      ("actual_words", (word_count : ℚ)),
      ("deviation_percent",
        pyRound (|(word_count : ℚ) - (total_words : ℚ) / 3| / ((total_words : ℚ) / 3) * 100) 1)] }

/-- Embedding of `_create_word_limit_flags`: one word-limit flag (hard takes
precedence via if/elif), then any imbalance flags. -/
def _create_word_limit_flags (cfg : StoryArchitectConfig) (analysis : WordCountAnalysis) :
    List ContinuityFlag :=
  (if "HARD_LIMIT_EXCEEDED" ∈ analysis.violation_codes then [hardLimitFlag cfg analysis.total_count]
   else if "SOFT_LIMIT_EXCEEDED" ∈ analysis.violation_codes then
    [softLimitFlag cfg analysis.total_count]
   else []) ++
  (if "BEGINNING_IMBALANCE" ∈ analysis.violation_codes then
    [_create_section_imbalance_flag "beginning" analysis.beginning_count analysis.total_count]
   else []) ++
  (if "MIDDLE_IMBALANCE" ∈ analysis.violation_codes then
    [_create_section_imbalance_flag "middle" analysis.middle_count analysis.total_count]
   else []) ++
  (if "END_IMBALANCE" ∈ analysis.violation_codes then
    [_create_section_imbalance_flag "end" analysis.end_count analysis.total_count]
   else [])

/-- Test whether a flag is one of the two word-limit flags. -/
def isWordLimitFlag (fl : ContinuityFlag) : Bool :=
  fl.code == "WORD_LIMIT_HARD" || fl.code == "WORD_LIMIT_SOFT"

/-- Filtering the created flags down to word-limit flags drops every
imbalance flag and keeps the single hard/soft selection. -/
theorem filter_word_limit_flags (cfg : StoryArchitectConfig) (a : WordCountAnalysis) :
    (_create_word_limit_flags cfg a).filter isWordLimitFlag =
      (if "HARD_LIMIT_EXCEEDED" ∈ a.violation_codes then [hardLimitFlag cfg a.total_count]
       else if "SOFT_LIMIT_EXCEEDED" ∈ a.violation_codes then [softLimitFlag cfg a.total_count]
       else []) := by
  unfold _create_word_limit_flags
  rw [List.filter_append, List.filter_append, List.filter_append]
  have hb : (if "BEGINNING_IMBALANCE" ∈ a.violation_codes then
      [_create_section_imbalance_flag "beginning" a.beginning_count a.total_count]
     else []).filter isWordLimitFlag = [] := by
    split_ifs <;> rfl
  have hm : (if "MIDDLE_IMBALANCE" ∈ a.violation_codes then
      [_create_section_imbalance_flag "middle" a.middle_count a.total_count]
     else []).filter isWordLimitFlag = [] := by
    split_ifs <;> rfl
  have he : (if "END_IMBALANCE" ∈ a.violation_codes then
      [_create_section_imbalance_flag "end" a.end_count a.total_count]
     else []).filter isWordLimitFlag = [] := by
    split_ifs <;> rfl
  rw [hb, hm, he]
  simp only [List.append_nil]
  split_ifs <;> rfl

/-- C1: with the soft limit at or below the hard limit, the word-count
analysis raises exactly one word-limit flag when the section total exceeds a
limit: the error-severity hard-limit flag (citing the hard limit and the
overage percentage against it, rounded to one decimal) when the total exceeds
the hard limit; else the warning-severity soft-limit flag (analogous
percentage against the soft limit) when it exceeds only the soft limit; and
no word-limit flag when the total is at or below the soft limit. -/
theorem C1_word_limit_flag_selection (cfg : StoryArchitectConfig) (arc : StoryArcSections)
    (T : Nat) (h : cfg.word_limit_soft ≤ cfg.word_limit_hard)
    (hT : T = countWords arc.beginning + countWords arc.middle + countWords arc.ending) :
    (T > cfg.word_limit_hard →
      (_create_word_limit_flags cfg (_analyze_word_counts cfg arc)).filter isWordLimitFlag =
        [hardLimitFlag cfg T])
    ∧ (T ≤ cfg.word_limit_hard → T > cfg.word_limit_soft →
      (_create_word_limit_flags cfg (_analyze_word_counts cfg arc)).filter isWordLimitFlag =
        [softLimitFlag cfg T])
    ∧ (T ≤ cfg.word_limit_soft →
      (_create_word_limit_flags cfg (_analyze_word_counts cfg arc)).filter isWordLimitFlag = [])
    ∧ (hardLimitFlag cfg T).severity = .error
    ∧ (hardLimitFlag cfg T).details =
        [("limit", (cfg.word_limit_hard : ℚ)), ("actual", (T : ℚ)),
         ("overage_percent",
           pyRound (((T : ℚ) - (cfg.word_limit_hard : ℚ)) / (cfg.word_limit_hard : ℚ) * 100) 1)]
    ∧ (softLimitFlag cfg T).severity = .warning
    ∧ (softLimitFlag cfg T).details =
        [("limit", (cfg.word_limit_soft : ℚ)), ("actual", (T : ℚ)),
         ("overage_percent",
           pyRound (((T : ℚ) - (cfg.word_limit_soft : ℚ)) / (cfg.word_limit_soft : ℚ) * 100) 1)] := by
  have htot : (_analyze_word_counts cfg arc).total_count = T := by
    rw [hT]; rfl
  have hcodes : (_analyze_word_counts cfg arc).violation_codes =
      limitCodes cfg T ++ imbalanceCodes cfg (countWords arc.beginning)
        (countWords arc.middle) (countWords arc.ending) T := by
    rw [hT]; rfl
  have hnotimb1 : "HARD_LIMIT_EXCEEDED" ∉ imbalanceCodes cfg (countWords arc.beginning)
      (countWords arc.middle) (countWords arc.ending) T := by
    unfold imbalanceCodes
    split_ifs <;> decide
  have hnotimb2 : "SOFT_LIMIT_EXCEEDED" ∉ imbalanceCodes cfg (countWords arc.beginning)
      (countWords arc.middle) (countWords arc.ending) T := by
    unfold imbalanceCodes
    split_ifs <;> decide
  refine ⟨?_, ?_, ?_, rfl, rfl, rfl, rfl⟩
  · intro hH
    have hS : T > cfg.word_limit_soft := lt_of_le_of_lt h hH
    have hmem : "HARD_LIMIT_EXCEEDED" ∈ (_analyze_word_counts cfg arc).violation_codes := by
      rw [hcodes]
      refine List.mem_append_left _ ?_
      unfold limitCodes
      rw [if_pos hS, if_pos hH]
      exact List.mem_singleton.mpr rfl
    rw [filter_word_limit_flags, if_pos hmem, htot]
  · intro hH hS
    have hmem1 : "HARD_LIMIT_EXCEEDED" ∉ (_analyze_word_counts cfg arc).violation_codes := by
      rw [hcodes]
      intro hmem
      rcases List.mem_append.mp hmem with hl | hr
      · unfold limitCodes at hl
        rw [if_pos hS, if_neg (not_lt.mpr hH)] at hl
        simp at hl
      · exact hnotimb1 hr
    have hmem2 : "SOFT_LIMIT_EXCEEDED" ∈ (_analyze_word_counts cfg arc).violation_codes := by
      rw [hcodes]
      refine List.mem_append_left _ ?_
      unfold limitCodes
      rw [if_pos hS, if_neg (not_lt.mpr hH)]
      exact List.mem_singleton.mpr rfl
    rw [filter_word_limit_flags, if_neg hmem1, if_pos hmem2, htot]
  · intro hS
    have hmem1 : "HARD_LIMIT_EXCEEDED" ∉ (_analyze_word_counts cfg arc).violation_codes := by
      rw [hcodes]
      intro hmem
      rcases List.mem_append.mp hmem with hl | hr
      · unfold limitCodes at hl
        rw [if_neg (not_lt.mpr hS)] at hl
        simp at hl
      · exact hnotimb1 hr
    have hmem2 : "SOFT_LIMIT_EXCEEDED" ∉ (_analyze_word_counts cfg arc).violation_codes := by
      rw [hcodes]
      intro hmem
      rcases List.mem_append.mp hmem with hl | hr
      · unfold limitCodes at hl
        rw [if_neg (not_lt.mpr hS)] at hl
        simp at hl
      · exact hnotimb2 hr
    rw [filter_word_limit_flags, if_neg hmem1, if_neg hmem2]

/-- A concrete configuration with soft limit 10 and hard limit 20. -/
def cfgWitness : StoryArchitectConfig :=
  { openai_model := "gpt-4o-mini", openai_api_key := "k", openai_max_tokens := 2000,
    openai_temperature := 7/10, openai_timeout_seconds := 6,
    override_llm_provider := none, override_llm_model := none, override_llm_api_key := none,
    override_llm_max_tokens := none, override_llm_temperature := none,
    word_limit_soft := 10, word_limit_hard := 20, section_balance_threshold := 1/2,
    deterministic_seed_enabled := true }

/-- A concrete arc with 10 whitespace-delimited words per section. -/
def arcWitness : StoryArcSections :=
  { beginning := "w w w w w w w w w w", middle := "w w w w w w w w w w",
    ending := "w w w w w w w w w w" }

/-- Witness for C1: 30 total words against limits 10/20 produce exactly the
single hard-limit flag. -/
theorem C1_word_limit_flag_selection_witness :
    (_create_word_limit_flags cfgWitness (_analyze_word_counts cfgWitness arcWitness)).filter
      isWordLimitFlag = [hardLimitFlag cfgWitness 30] := by
  have h := C1_word_limit_flag_selection cfgWitness arcWitness 30 (by decide) (by decide)
  exact h.1 (by decide)

/-! ## Story architect: `execute` error envelope (claim C3)

Source: `src/services/mcp-story-architect-service/src/mcp/draft_story_arc.py`,
`DraftStoryArcTool.execute` and `_extract_trace_context`.  `execute` extracts
the trace context from the raw input *before* entering its try block; every
later pipeline stage runs inside the try block, whose handler catches any
exception and returns the `{error: {...}}` envelope.  The pipeline stages
(validation, CMS, LLM, persistence) are passed as a single oracle; the
envelope's `request_id`/`processing_time_ms` fields are a fresh UUID and a
wall-clock measurement and are not modelled.
-/

/-- A JSON-ish Python value. -/
inductive PyVal
  | pnone
  | pbool (b : Bool)
  | pint (n : Int)
  | pstr (s : String)
  | plist (xs : List PyVal)
  | pdict (entries : List (String × PyVal))

/-- Python truthiness. -/
def pyTruthy : PyVal → Bool
  | .pnone => false
  | .pbool b => b
  | .pint n => n ≠ 0
  | .pstr s => s ≠ ""
  | .plist xs => !xs.isEmpty
  | .pdict es => !es.isEmpty

/-- An uncaught Python exception: class name and message. -/
structure PyExc where
  kind : String
  message : String
deriving DecidableEq

/-- Dictionary lookup (first binding wins). -/
def pyDictFind (es : List (String × PyVal)) (k : String) : Option PyVal :=
  (es.find? (fun p => p.1 == k)).map (fun p => p.2)

/-- Python `value.get(key, default)`: succeeds only on dicts; any other
value has no `get` attribute and raises `AttributeError`. -/
def pyGet (v : PyVal) (k : String) (dflt : PyVal) : Except PyExc PyVal :=
  match v with
  | .pdict es => .ok ((pyDictFind es k).getD dflt)
  | _ => .error { kind := "AttributeError", message := "object has no attribute get" }

/-- Embedding of the `TraceContext` model fields `execute` populates. -/
structure TraceContext where
  trace_id : Option String
  request_id : Option String
  correlation_id : Option String
deriving DecidableEq

/-- pydantic v1 validation of an `Optional[str]` field: `None` and strings
pass, numbers and booleans are coerced with `str()`, containers are
rejected. -/
def coerceOptStr : PyVal → Except PyExc (Option String)
  | .pnone => .ok none
  | .pstr s => .ok (some s)
  | .pint n => .ok (some (toString n))
  | .pbool b => .ok (some (if b then "True" else "False"))
  | .plist _ => .error { kind := "ValidationError", message := "str type expected" }
  | .pdict _ => .error { kind := "ValidationError", message := "str type expected" }

/-- Embedding of `_extract_trace_context`: reads
`creative_guidelines.trace_headers` when `creative_guidelines` is present and
truthy, then builds a `TraceContext` from the three `x-*` headers.  Each
`.get` call raises when its receiver is not a dict. -/
def _extract_trace_context (input : List (String × PyVal)) : Except PyExc TraceContext := do
  let th ←
    match pyDictFind input "creative_guidelines" with
    | some cg =>
      if pyTruthy cg then pyGet cg "trace_headers" (.pdict []) else pure (PyVal.pdict [])
    | none => pure (PyVal.pdict [])
  let tid ← pyGet th "x-trace-id" .pnone
  let rid ← pyGet th "x-request-id" .pnone
  let cid ← pyGet th "x-correlation-id" .pnone
  let t ← coerceOptStr tid
  let r ← coerceOptStr rid
  let c ← coerceOptStr cid
  return { trace_id := t, request_id := r, correlation_id := c }

/-- Outcome of `execute`: the success payload or the structured error
envelope. -/
inductive ExecOutcome
  | success (payload : List (String × PyVal))
  | errorEnvelope (type_ : String) (message : String) (trace_id : Option String)

/-- Embedding of `DraftStoryArcTool.execute`: trace extraction runs before
the try block (so its exceptions escape), then the entire pipeline runs
inside the try block and any exception becomes the error envelope. -/
def DraftStoryArc_execute (input : List (String × PyVal))
    (pipeline : List (String × PyVal) → TraceContext → Except PyExc (List (String × PyVal))) :
    Except PyExc ExecOutcome :=
  match _extract_trace_context input with
  | .error e => .error e
  | .ok tc =>
    match pipeline input tc with
    | .ok resp => .ok (.success resp)
    | .error e => .ok (.errorEnvelope e.kind e.message tc.trace_id)

/-- The claim's failing input: a request whose `creative_guidelines` value is
a (truthy) string rather than an object. -/
def badGuidelinesInput : List (String × PyVal) :=
  [("concept_brief", .pdict [("title", .pstr "T"), ("logline", .pstr "L"),
    ("core_conflict", .pstr "C"), ("tone_keywords", .plist [.pstr "dark"]),
    ("genre_tags", .plist [.pstr "thriller"])]),
   ("creative_guidelines", .pstr "not-an-object")]

/-- C3 (code bug): on the malformed input whose `creative_guidelines` is a
non-object, `execute` raises `AttributeError` out of the handler — trace
extraction runs before the try block — instead of returning the error
envelope the spec promises; whenever trace extraction succeeds, `execute`
indeed never raises and returns either the success shape or the envelope. -/
theorem C3_execute_raises_on_malformed_guidelines :
    (∀ pipeline, DraftStoryArc_execute badGuidelinesInput pipeline =
      .error { kind := "AttributeError", message := "object has no attribute get" })
    ∧ (∀ (input : List (String × PyVal)) (tc : TraceContext) pipeline,
        _extract_trace_context input = .ok tc →
        (∃ resp, DraftStoryArc_execute input pipeline = .ok (.success resp))
        ∨ ∃ e : PyExc, DraftStoryArc_execute input pipeline =
            .ok (.errorEnvelope e.kind e.message tc.trace_id)) := by
  constructor
  · intro pipeline
    rfl
  · intro input tc pipeline hex
    cases hp : pipeline input tc with
    | ok resp =>
      left
      exact ⟨resp, by simp only [DraftStoryArc_execute, hex, hp]⟩
    | error e =>
      right
      exact ⟨e, by simp only [DraftStoryArc_execute, hex, hp]⟩

/-- Witness for C3's envelope guarantee: with well-formed guidelines and a
failing pipeline, `execute` returns the envelope (it does not raise). -/
theorem C3_execute_raises_on_malformed_guidelines_witness :
    DraftStoryArc_execute [("concept_brief", .pdict [])]
        (fun _ _ => .error { kind := "LLMError", message := "boom" }) =
      .ok (.errorEnvelope "LLMError" "boom" none) := by
  rcases (C3_execute_raises_on_malformed_guidelines).2 [("concept_brief", .pdict [])]
      { trace_id := none, request_id := none, correlation_id := none }
      (fun _ _ => .error { kind := "LLMError", message := "boom" }) (by rfl) with
    ⟨resp, hr⟩ | ⟨e, he⟩
  · exact ExecOutcome.noConfusion (Except.ok.inj hr)
  · rfl

/-! ## Story architect: deterministic seed derivation (claim C8)

Source: `src/services/mcp-story-architect-service/src/mcp/draft_story_arc.py`,
`DraftStoryArcTool._get_or_generate_seed`.  With deterministic seeding
enabled, the concept hash is the first 16 hex characters of the SHA-256 of
`"title:logline:core_conflict"`, and without a project id the seed is the
first 16 hex characters of the SHA-256 of `"story-architect:" + concept_hash`.
`hashlib.sha256` is embedded below as a full executable SHA-256 (FIPS 180-4)
over the UTF-8 bytes of the input; the digest is carried as a 256-bit natural
number and hex-printed most-significant digit first, matching `hexdigest()`.
-/

/-- UTF-8 encoding of one scalar value. -/
def utf8EncodeChar (c : Char) : List Nat :=
  let n := c.toNat
  if n < 128 then [n]
  else if n < 2048 then [192 + n / 64, 128 + n % 64]
  else if n < 65536 then [224 + n / 4096, 128 + (n / 64) % 64, 128 + n % 64]
  else [240 + n / 262144, 128 + (n / 4096) % 64, 128 + (n / 64) % 64, 128 + n % 64]

/-- Python `str.encode()`: the UTF-8 bytes of a string. -/
def utf8Bytes (s : String) : List Nat :=
  (s.data.map utf8EncodeChar).flatten

/-- Truncation to a 32-bit word. -/
def w32 (x : Nat) : Nat := x % 4294967296

/-- 32-bit right rotation (for inputs below `2^32`). -/
def rotr32 (n x : Nat) : Nat := (x >>> n) + (x % 2 ^ n) * 2 ^ (32 - n)

/-- SHA-256 choice function (`~e` within 32 bits is `2^32 - 1 - e`). -/
def shaCh (e f g : Nat) : Nat := (e &&& f) ^^^ ((4294967295 - e) &&& g)

/-- SHA-256 majority function. -/
def shaMaj (a b c : Nat) : Nat := (a &&& b) ^^^ (a &&& c) ^^^ (b &&& c)

/-- SHA-256 big sigma 0. -/
def shaS0 (a : Nat) : Nat := rotr32 2 a ^^^ rotr32 13 a ^^^ rotr32 22 a

/-- SHA-256 big sigma 1. -/
def shaS1 (e : Nat) : Nat := rotr32 6 e ^^^ rotr32 11 e ^^^ rotr32 25 e

/-- SHA-256 small sigma 0. -/
def shaLs0 (x : Nat) : Nat := rotr32 7 x ^^^ rotr32 18 x ^^^ (x >>> 3)

/-- SHA-256 small sigma 1. -/
def shaLs1 (x : Nat) : Nat := rotr32 17 x ^^^ rotr32 19 x ^^^ (x >>> 10)

/-- The 64 SHA-256 round constants. -/
def sha256K : List Nat :=
  [1116352408, 1899447441, 3049323471, 3921009573, 961987163, 1508970993,
   2453635748, 2870763221, 3624381080, 310598401, 607225278, 1426881987,
   1925078388, 2162078206, 2614888103, 3248222580, 3835390401, 4022224774,
   264347078, 604807628, 770255983, 1249150122, 1555081692, 1996064986,
   2554220882, 2821834349, 2952996808, 3210313671, 3336571891, 3584528711,
   113926993, 338241895, 666307205, 773529912, 1294757372, 1396182291,
   1695183700, 1986661051, 2177026350, 2456956037, 2730485921, 2820302411,
   3259730800, 3345764771, 3516065817, 3600352804, 4094571909, 275423344,
   430227734, 506948616, 659060556, 883997877, 958139571, 1322822218,
   1537002063, 1747873779, 1955562222, 2024104815, 2227730452, 2361852424,
   2428436474, 2756734187, 3204031479, 3329325298]

/-- Big-endian bytes to 32-bit words. -/
def bytesToWords : List Nat → List Nat
  | b0 :: b1 :: b2 :: b3 :: rest => (((b0 * 256 + b1) * 256 + b2) * 256 + b3) :: bytesToWords rest
  | _ => []

/-- Extend 16 words of message schedule to 64. -/
def shaExtend (ws : List Nat) : List Nat :=
  (List.range 48).foldl
    (fun acc _ =>
      acc ++ [w32 (shaLs1 (acc.getD (acc.length - 2) 0) + acc.getD (acc.length - 7) 0 +
        shaLs0 (acc.getD (acc.length - 15) 0) + acc.getD (acc.length - 16) 0)])
    ws

/-- The eight 32-bit hash registers. -/
structure Hash8 where
  h0 : Nat
  h1 : Nat
  h2 : Nat
  h3 : Nat
  h4 : Nat
  h5 : Nat
  h6 : Nat
  h7 : Nat

/-- SHA-256 initial hash value. -/
def sha256Init : Hash8 :=
  ⟨1779033703, 3144134277, 1013904242, 2773480762, 1359893119, 2600822924, 528734635, 1541459225⟩

/-- One SHA-256 round on the working state `(a,b,c,d,e,f,g,h)` with a round
constant and schedule word. -/
def shaRound (st : Nat × Nat × Nat × Nat × Nat × Nat × Nat × Nat) (kw : Nat × Nat) :
    Nat × Nat × Nat × Nat × Nat × Nat × Nat × Nat :=
  let t1 := w32 (st.2.2.2.2.2.2.2 + shaS1 st.2.2.2.2.1 +
    shaCh st.2.2.2.2.1 st.2.2.2.2.2.1 st.2.2.2.2.2.2.1 + kw.1 + kw.2)
  let t2 := w32 (shaS0 st.1 + shaMaj st.1 st.2.1 st.2.2.1)
  (w32 (t1 + t2), st.1, st.2.1, st.2.2.1, w32 (st.2.2.2.1 + t1), st.2.2.2.2.1,
    st.2.2.2.2.2.1, st.2.2.2.2.2.2.1)

/-- Compress one 64-byte block into the hash state. -/
def sha256_compress (H : Hash8) (block : List Nat) : Hash8 :=
  let fin := (sha256K.zip (shaExtend (bytesToWords block))).foldl shaRound
    (H.h0, H.h1, H.h2, H.h3, H.h4, H.h5, H.h6, H.h7)
  { h0 := w32 (H.h0 + fin.1), h1 := w32 (H.h1 + fin.2.1), h2 := w32 (H.h2 + fin.2.2.1),
    h3 := w32 (H.h3 + fin.2.2.2.1), h4 := w32 (H.h4 + fin.2.2.2.2.1),
    h5 := w32 (H.h5 + fin.2.2.2.2.2.1), h6 := w32 (H.h6 + fin.2.2.2.2.2.2.1),
    h7 := w32 (H.h7 + fin.2.2.2.2.2.2.2) }

/-- Big-endian 64-bit length field. -/
def be64 (n : Nat) : List Nat :=
  [n / 2 ^ 56 % 256, n / 2 ^ 48 % 256, n / 2 ^ 40 % 256, n / 2 ^ 32 % 256,
   n / 2 ^ 24 % 256, n / 2 ^ 16 % 256, n / 2 ^ 8 % 256, n % 256]

/-- SHA-256 padding: `0x80`, zeros to 56 mod 64, then the bit length. -/
def sha256_pad (msg : List Nat) : List Nat :=
  msg ++ [128] ++ List.replicate ((55 + 64 - msg.length % 64) % 64) 0 ++ be64 (8 * msg.length)

/-- Split a byte list into 64-byte blocks (fuelled so it stays structural). -/
def toBlocksFuel : Nat → List Nat → List (List Nat)
  | 0, _ => []
  | _ + 1, [] => []
  | fuel + 1, b :: rest => ((b :: rest).take 64) :: toBlocksFuel fuel ((b :: rest).drop 64)

/-- Final hash state of a message. -/
def sha256_finalHash (msg : List Nat) : Hash8 :=
  (toBlocksFuel (sha256_pad msg).length (sha256_pad msg)).foldl sha256_compress sha256Init

/-- The eight registers as one 256-bit natural number (big-endian). -/
def hash8ToNat (H : Hash8) : Nat :=
  ((((((H.h0 * 4294967296 + H.h1) * 4294967296 + H.h2) * 4294967296 + H.h3) * 4294967296 +
    H.h4) * 4294967296 + H.h5) * 4294967296 + H.h6) * 4294967296 + H.h7

/-- SHA-256 digest of a byte list as a natural number below `2^256`. -/
def sha256_natDigest (msg : List Nat) : Nat :=
  hash8ToNat (sha256_finalHash msg)

/-- Lower-case hex digit. -/
def hexDigitChar (n : Nat) : Char :=
  if n < 10 then Char.ofNat (48 + n) else Char.ofNat (87 + n)

/-- The `k` low hex digits of `d`, most significant first. -/
def toHexList : Nat → Nat → List Char
  | 0, _ => []
  | k + 1, d => hexDigitChar (d / 16 ^ k % 16) :: toHexList k d

/-- Model of `hashlib.sha256(s.encode()).hexdigest()`. -/
def sha256_hexdigest (s : String) : String :=
  String.mk (toHexList 64 (sha256_natDigest (utf8Bytes s)))

/-- Python `s[:16]`. -/
def pySlice16 (s : String) : String := String.mk (s.data.take 16)

/-- The concept hash: first 16 hex chars of
`sha256("title:logline:core_conflict")`. -/
def concept_hash_of (title logline core_conflict : String) : String :=
  pySlice16 (sha256_hexdigest (title ++ ":" ++ logline ++ ":" ++ core_conflict))

/-- The unpersisted seed: first 16 hex chars of
`sha256("story-architect:" + concept_hash)`. -/
def generate_unpersisted_seed (title logline core_conflict : String) : String :=
  pySlice16 (sha256_hexdigest ("story-architect:" ++ concept_hash_of title logline core_conflict))

/-- A concept brief (the fields seed derivation reads, plus the tag lists). -/
structure ConceptBrief where
  title : String
  logline : String
  core_conflict : String
  tone_keywords : List String
  genre_tags : List String

/-- Embedding of `_get_or_generate_seed`: disabled seeding yields no seed;
with a project id the persisted seed record is consulted (an oracle here,
whose failure degrades to no seed); without one the unpersisted seed is
derived. -/
def _get_or_generate_seed (cfg : StoryArchitectConfig) (brief : ConceptBrief)
    (project_id : Option String) (seedStore : String → String → Except String String) :
    Option String :=
  if !cfg.deterministic_seed_enabled then none
  else
    match project_id with
    | some pid =>
      match seedStore pid (concept_hash_of brief.title brief.logline brief.core_conflict) with
      | .ok v => some v
      | .error _ => none
    | none => some (generate_unpersisted_seed brief.title brief.logline brief.core_conflict)

/-- All eight registers are 32-bit. -/
def hash8Lt (H : Hash8) : Prop :=
  H.h0 < 4294967296 ∧ H.h1 < 4294967296 ∧ H.h2 < 4294967296 ∧ H.h3 < 4294967296 ∧
    H.h4 < 4294967296 ∧ H.h5 < 4294967296 ∧ H.h6 < 4294967296 ∧ H.h7 < 4294967296

/-- Compression always produces 32-bit registers. -/
theorem sha256_compress_lt (H : Hash8) (block : List Nat) :
    hash8Lt (sha256_compress H block) := by
  unfold hash8Lt sha256_compress w32
  refine ⟨?_, ?_, ?_, ?_, ?_, ?_, ?_, ?_⟩ <;> exact Nat.mod_lt _ (by norm_num)

/-- Folding compression over any block list preserves 32-bit registers. -/
theorem foldl_compress_lt (bs : List (List Nat)) (H : Hash8) (h : hash8Lt H) :
    hash8Lt (bs.foldl sha256_compress H) := by
  induction bs generalizing H with
  | nil => exact h
  | cons b bs ih =>
    rw [List.foldl_cons]
    exact ih (sha256_compress H b) (sha256_compress_lt H b)

/-- Positional bound: a digit below `B` appended to a value below `A`. -/
theorem mulAdd_lt {x y A B : Nat} (hx : x < A) (hy : y < B) : x * B + y < A * B := by
  calc x * B + y < x * B + B := by omega
    _ = (x + 1) * B := by ring
    _ ≤ A * B := Nat.mul_le_mul_right B hx

/-- Eight 32-bit registers pack into a number below `2^256`. -/
theorem hash8ToNat_lt (H : Hash8) (h : hash8Lt H) : hash8ToNat H < 2 ^ 256 := by
  obtain ⟨h0, h1, h2, h3, h4, h5, h6, h7⟩ := h
  have b1 := mulAdd_lt h0 h1
  have b2 := mulAdd_lt b1 h2
  have b3 := mulAdd_lt b2 h3
  have b4 := mulAdd_lt b3 h4
  have b5 := mulAdd_lt b4 h5
  have b6 := mulAdd_lt b5 h6
  have b7 := mulAdd_lt b6 h7
  unfold hash8ToNat
  exact lt_of_lt_of_eq b7 (by norm_num)

/-- The digest is a 256-bit number. -/
theorem sha256_natDigest_lt (msg : List Nat) : sha256_natDigest msg < 2 ^ 256 := by
  refine hash8ToNat_lt _ (foldl_compress_lt _ sha256Init ?_)
  unfold hash8Lt sha256Init
  norm_num

/-- `toHexList` always prints the requested number of digits. -/
theorem toHexList_length : ∀ (k d : Nat), (toHexList k d).length = k
  | 0, _ => rfl
  | k + 1, d => by simp [toHexList, toHexList_length k d]

/-- The first `k` of `m + k` hex digits are the hex digits of `d / 16 ^ m`. -/
theorem toHexList_take : ∀ (k m d : Nat), (toHexList (m + k) d).take k = toHexList k (d / 16 ^ m)
  | 0, _, _ => by simp [toHexList]
  | k + 1, m, d => by
    show (toHexList ((m + k) + 1) d).take (k + 1) = toHexList (k + 1) (d / 16 ^ m)
    simp only [toHexList, List.take_succ_cons]
    congr 1
    · rw [Nat.div_div_eq_div_mul, ← pow_add]
    · exact toHexList_take k m d

/-- The concept hash is the hex print of the top 64 bits of the digest. -/
theorem concept_hash_top_bits (t l c : String) :
    concept_hash_of t l c =
      String.mk (toHexList 16 (sha256_natDigest (utf8Bytes (t ++ ":" ++ l ++ ":" ++ c)) / 2 ^ 192)) := by
  unfold concept_hash_of pySlice16 sha256_hexdigest
  have h := toHexList_take 16 48 (sha256_natDigest (utf8Bytes (t ++ ":" ++ l ++ ":" ++ c)))
  rw [show (16 : Nat) ^ 48 = 2 ^ 192 by norm_num] at h
  exact congrArg String.mk h

/-- The top 64 bits of the digest of `"a"*(n+1) ++ ":L:C"`, as an element of
a finite type, for the pigeonhole argument. -/
def seedCollisionProbe (l c : String) (n : Nat) : Fin (2 ^ 64) :=
  ⟨sha256_natDigest (utf8Bytes (String.mk (List.replicate (n + 1) 'a') ++ ":" ++ l ++ ":" ++ c)) / 2 ^ 192,
   by
    refine (Nat.div_lt_iff_lt_mul (by positivity)).mpr ?_
    calc sha256_natDigest _ < 2 ^ 256 := sha256_natDigest_lt _
      _ = 2 ^ 64 * 2 ^ 192 := by norm_num⟩

/-- Counterexample to C8's universal distinctness part: because the seed
keeps only 16 hex characters (64 bits) of the digest, there exist two concept
briefs identical except for the title whose seeds coincide — "changing any
one of title/logline/core_conflict changes the seed" is false as a universal
statement. -/
theorem C8_counterexample :
    ¬ (∀ t1 t2 l c : String, t1 ≠ t2 →
        generate_unpersisted_seed t1 l c ≠ generate_unpersisted_seed t2 l c) := by
  intro hclaim
  obtain ⟨n1, n2, hne, heq⟩ := Finite.exists_ne_map_eq_of_infinite (seedCollisionProbe "L" "C")
  have hval : sha256_natDigest (utf8Bytes (String.mk (List.replicate (n1 + 1) 'a') ++ ":" ++ "L" ++ ":" ++ "C")) / 2 ^ 192 =
      sha256_natDigest (utf8Bytes (String.mk (List.replicate (n2 + 1) 'a') ++ ":" ++ "L" ++ ":" ++ "C")) / 2 ^ 192 := by
    have := congrArg Fin.val heq
    simpa [seedCollisionProbe] using this
  have hhash : concept_hash_of (String.mk (List.replicate (n1 + 1) 'a')) "L" "C" =
      concept_hash_of (String.mk (List.replicate (n2 + 1) 'a')) "L" "C" := by
    rw [concept_hash_top_bits, concept_hash_top_bits, hval]
  have hseed : generate_unpersisted_seed (String.mk (List.replicate (n1 + 1) 'a')) "L" "C" =
      generate_unpersisted_seed (String.mk (List.replicate (n2 + 1) 'a')) "L" "C" := by
    unfold generate_unpersisted_seed
    rw [hhash]
  have htitle : String.mk (List.replicate (n1 + 1) 'a') ≠ String.mk (List.replicate (n2 + 1) 'a') := by
    intro hcontra
    apply hne
    have hdata : List.replicate (n1 + 1) 'a' = List.replicate (n2 + 1) 'a' :=
      congrArg String.data hcontra
    have hlen := congrArg List.length hdata
    simp only [List.length_replicate] at hlen
    omega
  exact hclaim _ _ "L" "C" htitle hseed

/-- The seed always has exactly 16 characters. -/
theorem generate_unpersisted_seed_length (t l c : String) :
    (generate_unpersisted_seed t l c).length = 16 := by
  unfold generate_unpersisted_seed pySlice16 sha256_hexdigest
  simp [String.length, toHexList_length]

set_option maxRecDepth 200000 in
/-- C8 (amended): with deterministic seeding enabled and no project id, the
seed is the stated pure double-hash truncation of title/logline/core_conflict
(so two calls on the same brief agree), it always has 16 characters, and at
the concrete test brief changing any one of title, logline or core_conflict
changes the seed; universal distinctness cannot hold because the seed keeps
only 64 bits of the digest. -/
theorem C8_seed_derivation_amended :
    (∀ (cfg : StoryArchitectConfig) (brief : ConceptBrief)
        (store : String → String → Except String String),
      cfg.deterministic_seed_enabled = true →
      _get_or_generate_seed cfg brief none store =
        some (pySlice16 (sha256_hexdigest ("story-architect:" ++
          pySlice16 (sha256_hexdigest
            (brief.title ++ ":" ++ brief.logline ++ ":" ++ brief.core_conflict))))))
    ∧ (∀ t l c : String, (generate_unpersisted_seed t l c).length = 16)
    ∧ generate_unpersisted_seed "Skyline Heist" "A crew plans one last job" "loyalty vs greed" ≠
        generate_unpersisted_seed "Skyline Heist 2" "A crew plans one last job" "loyalty vs greed"
    ∧ generate_unpersisted_seed "Skyline Heist" "A crew plans one last job" "loyalty vs greed" ≠
        generate_unpersisted_seed "Skyline Heist" "Two rivals fight" "loyalty vs greed"
    ∧ generate_unpersisted_seed "Skyline Heist" "A crew plans one last job" "loyalty vs greed" ≠
        generate_unpersisted_seed "Skyline Heist" "A crew plans one last job" "betrayal" := by
  refine ⟨?_, generate_unpersisted_seed_length, by decide, by decide, by decide⟩
  intro cfg brief store hen
  simp [_get_or_generate_seed, hen, generate_unpersisted_seed, concept_hash_of]

/-- Witness for C8 (amended) at a concrete brief and enabled configuration. -/
theorem C8_seed_derivation_amended_witness :
    _get_or_generate_seed cfgWitness
        { title := "T", logline := "L", core_conflict := "C",
          tone_keywords := ["wry"], genre_tags := ["heist"] }
        none (fun _ _ => .error "unused") =
      some (pySlice16 (sha256_hexdigest ("story-architect:" ++
        pySlice16 (sha256_hexdigest ("T" ++ ":" ++ "L" ++ ":" ++ "C"))))) :=
  (C8_seed_derivation_amended).1 cfgWitness
    { title := "T", logline := "L", core_conflict := "C",
      tone_keywords := ["wry"], genre_tags := ["heist"] }
    (fun _ _ => .error "unused") rfl
